import Mathlib

/-!
Shallow embedding of the iot4agri dashboard core (a Next.js sensor dashboard):
the latest-reading sync controller of `app/page.tsx` and the chart-data
preparation pipeline of the charts page. JavaScript numbers are modelled as
exact rationals (`ℚ`), nullable fields as `Option`, and the asynchronous
runtime (realtime subscription, interval timer, fetch completion) as an
explicit event step function on a controller state.
-/

/-! ## Data model (from the TypeScript type declarations) -/

structure SensorData where
  timestamp : String
  ph : Option ℚ
  ph_voltage : Option ℚ
  temp1 : Option ℚ
  temp2 : Option ℚ
  bme_temperature : Option ℚ
  bme_humidity : Option ℚ
  bme_pressure : Option ℚ
  bme_gas_resistance : Option ℚ
  methan_raw : Option (List String)
  methane_ppm : Option ℚ
  methane_percent : Option ℚ
  methane_temperature : Option ℚ
  methane_faults : Option (List String)
  deriving DecidableEq

structure ChartDataPoint where
  timestamp : String
  date : String
  ph : Option ℚ
  ph_voltage : Option ℚ
  temp1 : Option ℚ
  temp2 : Option ℚ
  bme_temperature : Option ℚ
  bme_humidity : Option ℚ
  bme_pressure : Option ℚ
  bme_gas_resistance : Option ℚ
  methane_ppm : Option ℚ
  methane_percent : Option ℚ
  methane_temperature : Option ℚ
  deriving DecidableEq

/-- The numeric channel keys the charts page passes as `dataKeys` (the
optional fields of `ChartDataPoint`, never `timestamp` or `date`). -/
inductive ChannelKey where
  | ph
  | ph_voltage
  | temp1
  | temp2
  | bme_temperature
  | bme_humidity
  | bme_pressure
  | bme_gas_resistance
  | methane_ppm
  | methane_percent
  | methane_temperature
  deriving DecidableEq

/-- The dynamic field access `point[key as keyof ChartDataPoint]` restricted
to the numeric channel keys actually used by the charts page. -/
def channelValue (point : ChartDataPoint) : ChannelKey → Option ℚ
  | ChannelKey.ph => point.ph
  | ChannelKey.ph_voltage => point.ph_voltage
  | ChannelKey.temp1 => point.temp1
  | ChannelKey.temp2 => point.temp2
  | ChannelKey.bme_temperature => point.bme_temperature
  | ChannelKey.bme_humidity => point.bme_humidity
  | ChannelKey.bme_pressure => point.bme_pressure
  | ChannelKey.bme_gas_resistance => point.bme_gas_resistance
  | ChannelKey.methane_ppm => point.methane_ppm
  | ChannelKey.methane_percent => point.methane_percent
  | ChannelKey.methane_temperature => point.methane_temperature

structure AlarmZone where
  min : ℚ
  max : ℚ
  label : String
  color : String
  deriving DecidableEq

structure AlarmZonesConfig where
  tank_temperature : List AlarmZone
  ph : List AlarmZone

/-- The `ALARM_ZONES` configuration literal of the charts page. -/
def ALARM_ZONES : AlarmZonesConfig :=
  { tank_temperature :=
      [ { min := 0, max := 30, label := "Too cold (<30°C)", color := "#3b82f6" },
        { min := 30, max := 40, label := "Optimal (30-40°C)", color := "#22c55e" },
        { min := 40, max := 80, label := "Too hot (>40°C)", color := "#ef4444" } ],
    ph :=
      [ { min := 0, max := 6, label := "Too acidic (<6)", color := "#ef4444" },
        { min := 6, max := 8, label := "Optimal (6-8)", color := "#22c55e" },
        { min := 8, max := 14, label := "Too alkaline (>8)", color := "#ef4444" } ] }

/-! ## RowNormalizer: the `chartData` map of the charts page.

`point.ph ?? undefined` turns a null channel into an absent field and passes
any numeric value (including 0) through unchanged, so per channel the map is
the identity on `Option ℚ`. The timestamp and date labels come from the
external `Date` locale formatting, which is not part of this repository, so
the normalizer is parametric in those two string transformations. -/

def toChartPoint (fmtTs fmtDate : String → String) (point : SensorData) : ChartDataPoint :=
  { timestamp := fmtTs point.timestamp
    date := fmtDate point.timestamp
    ph := point.ph
    ph_voltage := point.ph_voltage
    temp1 := point.temp1
    temp2 := point.temp2
    bme_temperature := point.bme_temperature
    bme_humidity := point.bme_humidity
    bme_pressure := point.bme_pressure
    bme_gas_resistance := point.bme_gas_resistance
    methane_ppm := point.methane_ppm
    methane_percent := point.methane_percent
    methane_temperature := point.methane_temperature }

def chartData (fmtTs fmtDate : String → String) (data : List SensorData) : List ChartDataPoint :=
  data.map (toChartPoint fmtTs fmtDate)

/-! ## SeriesFilter, AutoScaleCalculator, ChartSeriesBuilder
(the `SensorChart` component of the charts page). -/

/-- `filteredData`: keep the points that have at least one value for the
desired keys (`point[key] !== undefined`). -/
def filteredData (data : List ChartDataPoint) (dataKeys : List ChannelKey) : List ChartDataPoint :=
  data.filter (fun point => dataKeys.any (fun key => (channelValue point key).isSome))

/-- The `allValues` pool: for each requested key, in order, every present
numeric value of the filtered points. The `typeof value === 'number' &&
!isNaN(value)` guard holds for every present value in this model, since the
channel keys are the numeric fields and `ℚ` has no NaN. -/
def collectValues (dataKeys : List ChannelKey) (pts : List ChartDataPoint) : List ℚ :=
  dataKeys.foldr (fun key acc => pts.filterMap (fun point => channelValue point key) ++ acc) []

/-- The body of the `if (allValues.length > 0)` block: `Math.min`/`Math.max`
over the pool, `range = max - min`, `padding = range * 0.1`, domain
`[min - padding, max + padding]`; no domain when the pool is empty. -/
def autoDomain (allValues : List ℚ) : Option (ℚ × ℚ) :=
  match allValues with
  | [] => none
  | v :: vs =>
      let mn := List.foldl min v vs
      let mx := List.foldl max v vs
      let range := mx - mn
      let padding := range * (1 / 10)
      some (mn - padding, mx + padding)

/-- `yAxisDomain` as computed by `SensorChart`: it starts as the fixed
`domain` prop and is overwritten by the auto-scaled domain when
`autoScale && filteredData.length > 0` and the value pool is non-empty. -/
def yAxisDomain (domain : Option (ℚ × ℚ)) (autoScale : Bool)
    (dataKeys : List ChannelKey) (fd : List ChartDataPoint) : Option (ℚ × ℚ) :=
  if autoScale ∧ 0 < fd.length then
    match autoDomain (collectValues dataKeys fd) with
    | some d => some d
    | none => domain
  else domain

/-- The outcome of rendering one `SensorChart`: either the explicit
"No data available" card or a chart bundle (points, axis domain, alarm
zones, and the surviving point count shown in the description). -/
inductive ChartOutcome where
  | noData
  | chart (points : List ChartDataPoint) (axisDomain : Option (ℚ × ℚ))
      (alarmZones : Option (List AlarmZone)) (pointCount : Nat)
  deriving DecidableEq

/-- The `SensorChart` component: early return of the "No data available"
card when `filteredData.length === 0`, otherwise the chart bundle. -/
def sensorChart (data : List ChartDataPoint) (dataKeys : List ChannelKey)
    (domain : Option (ℚ × ℚ)) (autoScale : Bool)
    (alarmZones : Option (List AlarmZone)) : ChartOutcome :=
  let fd := filteredData data dataKeys
  if fd.length = 0 then ChartOutcome.noData
  else ChartOutcome.chart fd (yAxisDomain domain autoScale dataKeys fd) alarmZones fd.length

/-! ## LatestReadingSync: the `Home` component of `app/page.tsx`.

State: `data : SensorData | null` and `loading : boolean`. The controller
is driven by four kinds of events: an interval tick starting `fetchLatest`
(which begins with `setLoading(true)`), the completion of a `fetchLatest`
query, a realtime INSERT notification, and the effect cleanup. The supabase
client resolves a failed query with a null `data` field (it does not throw),
so the destructured `rows` is `none` on failure and `rows?.[0] ?? null`
yields null; a successful query delivers the row list. `unsubscribe()` and
`clearInterval` mean the corresponding callbacks no longer run, modelled by
the `subscribed` and `pollActive` flags guarding those two events. -/

structure LatestReadingState where
  data : Option SensorData
  loading : Bool
  deriving DecidableEq

structure ControllerState where
  st : LatestReadingState
  subscribed : Bool
  pollActive : Bool
  deriving DecidableEq

inductive SyncEvent where
  | pollTick
  | fetchComplete (rows : Option (List SensorData))
  | push (r : SensorData)
  | teardown

def syncStep (c : ControllerState) : SyncEvent → ControllerState
  | SyncEvent.pollTick =>
      if c.pollActive then { c with st := { c.st with loading := true } } else c
  | SyncEvent.fetchComplete rows =>
      { c with st := { data := rows.bind (fun l => l.head?), loading := false } }
  | SyncEvent.push r =>
      if c.subscribed then { c with st := { c.st with data := some r } } else c
  | SyncEvent.teardown =>
      { c with subscribed := false, pollActive := false }

def syncRun (c : ControllerState) (es : List SyncEvent) : ControllerState :=
  es.foldl syncStep c

/-- Mount: `useState(null)`, `useState(true)`, the effect calls
`fetchLatest()` (its `setLoading(true)` keeps `loading` true), subscribes
the realtime channel and starts the 12000 ms interval. -/
def syncInit : ControllerState :=
  { st := { data := none, loading := true }, subscribed := true, pollActive := true }

/-- The render guard `if (loading && !data)` that selects the
"Loading latest data…" placeholder. -/
def showLoadingPlaceholder (s : LatestReadingState) : Bool :=
  s.loading && s.data.isNone

/-! ## Band predicates for the alarm-zone configuration -/

def ascendingByMin : List AlarmZone → Bool
  | z1 :: z2 :: rest => decide (z1.min < z2.min) && ascendingByMin (z2 :: rest)
  | _ => true

def contiguousBands : List AlarmZone → Bool
  | z1 :: z2 :: rest => decide (z1.max = z2.min) && contiguousBands (z2 :: rest)
  | _ => true

/-- How many bands of the list contain `x`, reading each band as
half-open `[min, max)` except the last, which is closed `[min, max]`. -/
def bandsCount (zones : List AlarmZone) (x : ℚ) : Nat :=
  match zones with
  | [] => 0
  | [z] => if z.min ≤ x ∧ x ≤ z.max then 1 else 0
  | z :: rest => (if z.min ≤ x ∧ x < z.max then 1 else 0) + bandsCount rest x

/-! ## Concrete sample data -/

def sampleReading : SensorData :=
  { timestamp := "2024-06-01T12:00:00Z", ph := some 7, ph_voltage := some 1500,
    temp1 := some 35, temp2 := some 36, bme_temperature := some 25,
    bme_humidity := some 60, bme_pressure := some 1013, bme_gas_resistance := some 120,
    methan_raw := some ["a0"], methane_ppm := some 400, methane_percent := some 2,
    methane_temperature := some 30, methane_faults := none }

/-- A reading with a strictly newer timestamp than `sampleReading`. -/
def sampleReading2 : SensorData :=
  { sampleReading with timestamp := "2024-06-02T12:00:00Z" }

/-- A chart point carrying only the `bme_pressure` channel. -/
def pressurePoint (t : String) (v : ℚ) : ChartDataPoint :=
  { timestamp := t, date := t, ph := none, ph_voltage := none, temp1 := none,
    temp2 := none, bme_temperature := none, bme_humidity := none,
    bme_pressure := some v, bme_gas_resistance := none, methane_ppm := none,
    methane_percent := none, methane_temperature := none }

def pressurePoints : List ChartDataPoint :=
  [pressurePoint "t1" 10, pressurePoint "t2" 20, pressurePoint "t3" 30]

def constPoints : List ChartDataPoint :=
  [pressurePoint "t1" 5, pressurePoint "t2" 5, pressurePoint "t3" 5]

def samplePoint : ChartDataPoint :=
  { pressurePoint "t" 10 with ph := some 7 }

/-- A controller state holding a reading, as reached after one successful
fetch completion from `syncInit`. -/
def heldState : ControllerState :=
  { st := { data := some sampleReading, loading := false },
    subscribed := true, pollActive := true }

/-! ## Theorems about LatestReadingSync -/

/-- Claim C1, counterexample: the claim says a failed fetch leaves the held
reading unchanged, but after a successful fetch stored `sampleReading`, a
poll whose fetch fails (the client resolves with a null row set) clears the
held reading to none. -/
theorem fetchFailure_clears_reading :
    (syncRun syncInit [SyncEvent.fetchComplete (some [sampleReading])]).st.data
      = some sampleReading
    ∧ (syncRun syncInit [SyncEvent.fetchComplete (some [sampleReading]),
        SyncEvent.pollTick, SyncEvent.fetchComplete none]).st.data = none :=
  ⟨rfl, rfl⟩

/-- Claim C1 (amended): on a failed latest-reading fetch the controller
stores none as the held reading — clearing any previously held reading, so
none on the first failure — and ends with loading = false; the failure is
never surfaced as a fatal condition and the state is never stuck at
loading = true. -/
theorem fetchFailure_state (c : ControllerState) :
    (syncStep c (SyncEvent.fetchComplete none)).st.data = none
    ∧ (syncStep c (SyncEvent.fetchComplete none)).st.loading = false :=
  ⟨rfl, rfl⟩

/-- Claim C2: a push notification payload becomes the held reading
unconditionally (no ordering check), and a push of R1 followed by a
completed poll returning R2 leaves R2 in the state — for every R1 and R2,
in particular when R1 has the newer timestamp. -/
theorem lastWriteWins (c : ControllerState) (hsub : c.subscribed = true)
    (r1 r2 : SensorData) (rest : List SensorData) :
    (syncStep c (SyncEvent.push r1)).st.data = some r1
    ∧ (syncRun c [SyncEvent.push r1,
        SyncEvent.fetchComplete (some (r2 :: rest))]).st.data = some r2 := by
  constructor
  · simp [syncStep, hsub]
  · rfl

/-- Witness for C2: from the initial state, a push of the newer
`sampleReading2` followed by a poll returning the older `sampleReading`
ends with the older reading held. -/
theorem lastWriteWins_witness :
    (syncStep syncInit (SyncEvent.push sampleReading2)).st.data = some sampleReading2
    ∧ (syncRun syncInit [SyncEvent.push sampleReading2,
        SyncEvent.fetchComplete (some [sampleReading])]).st.data = some sampleReading :=
  lastWriteWins syncInit rfl sampleReading2 sampleReading []

/-- Claim C3, counterexample: the claim says loading is set true only
during the initial fetch, but after the initial fetch completed (loading
false) the 12 s poll tick runs `fetchLatest`, whose `setLoading(true)`
raises the flag again. -/
theorem pollRefetch_sets_loading :
    (syncRun syncInit [SyncEvent.fetchComplete (some [sampleReading])]).st.loading = false
    ∧ (syncRun syncInit [SyncEvent.fetchComplete (some [sampleReading]),
        SyncEvent.pollTick]).st.loading = true :=
  ⟨rfl, rfl⟩

/-- Claim C3 (amended): loading starts true and is raised again at the
start of every poll re-fetch (`fetchLatest` begins with
`setLoading(true)`); push updates never change the flag, and every fetch
completion lowers it to false. -/
theorem loading_transitions (c : ControllerState) (r : SensorData)
    (hpoll : c.pollActive = true) :
    syncInit.st.loading = true
    ∧ (syncStep c SyncEvent.pollTick).st.loading = true
    ∧ (syncStep c (SyncEvent.push r)).st.loading = c.st.loading
    ∧ ∀ rows, (syncStep c (SyncEvent.fetchComplete rows)).st.loading = false := by
  refine ⟨rfl, by simp [syncStep, hpoll], ?_, fun rows => rfl⟩
  by_cases h : c.subscribed <;> simp [syncStep, h]

/-- Witness for C3 (amended): a poll tick in the initial state raises the
loading flag. -/
theorem loading_transitions_witness :
    (syncStep syncInit SyncEvent.pollTick).st.loading = true :=
  (loading_transitions syncInit sampleReading rfl).2.1

/-- After both the subscription and the interval are released, a push
delivery or a poll tick leaves the controller state entirely unchanged. -/
theorem syncRun_inert (es : List SyncEvent) (d : ControllerState)
    (hsub : d.subscribed = false) (hpoll : d.pollActive = false)
    (h : ∀ e ∈ es, e = SyncEvent.pollTick ∨ ∃ r, e = SyncEvent.push r) :
    syncRun d es = d := by
  induction es generalizing d with
  | nil => rfl
  | cons e tail ih =>
    have hstep : syncStep d e = d := by
      rcases h e (List.mem_cons_self e tail) with h1 | ⟨r, h2⟩
      · subst h1; simp [syncStep, hpoll]
      · subst h2; simp [syncStep, hsub]
    show syncRun (syncStep d e) tail = d
    rw [hstep]
    exact ih d hsub hpoll (fun e2 he2 => h e2 (List.mem_cons_of_mem e he2))

/-- Claim C9: teardown releases the push subscription and the poll
interval together, and afterwards no sequence of delayed push deliveries
and pending poll ticks ever mutates the LatestReadingState slot. -/
theorem teardown_inert (c : ControllerState) (es : List SyncEvent)
    (h : ∀ e ∈ es, e = SyncEvent.pollTick ∨ ∃ r, e = SyncEvent.push r) :
    (syncStep c SyncEvent.teardown).subscribed = false
    ∧ (syncStep c SyncEvent.teardown).pollActive = false
    ∧ (syncRun (syncStep c SyncEvent.teardown) es).st = c.st := by
  refine ⟨rfl, rfl, ?_⟩
  rw [syncRun_inert es (syncStep c SyncEvent.teardown) rfl rfl h]
  rfl

/-- Witness for C9: a late push of `sampleReading2` and a late poll tick
after teardown of the freshly mounted controller leave the state slot as it
was. -/
theorem teardown_inert_witness :
    (syncRun (syncStep syncInit SyncEvent.teardown)
      [SyncEvent.push sampleReading2, SyncEvent.pollTick]).st = syncInit.st := by
  refine (teardown_inert syncInit
    [SyncEvent.push sampleReading2, SyncEvent.pollTick] ?_).2.2
  intro e he
  rcases List.mem_cons.mp he with h1 | h1
  · exact Or.inr ⟨sampleReading2, h1⟩
  · exact Or.inl (List.mem_singleton.mp h1)

/-- Claim C10: the loading placeholder is shown iff the loading flag is set
and no reading is held; consequently a poll tick that raises the loading
flag on a state holding a reading never brings the placeholder back. -/
theorem loadingPlaceholder_iff (s : LatestReadingState) (c : ControllerState)
    (r : SensorData) (h : c.st.data = some r) :
    (showLoadingPlaceholder s = true ↔ (s.loading = true ∧ s.data = none))
    ∧ showLoadingPlaceholder (syncStep c SyncEvent.pollTick).st = false := by
  constructor
  · simp [showLoadingPlaceholder, Option.isNone_iff_eq_none, Bool.and_eq_true]
  · by_cases hp : c.pollActive <;> simp [syncStep, hp, showLoadingPlaceholder, h]

/-- Witness for C10: a poll tick on a state holding `sampleReading` does
not show the loading placeholder. -/
theorem loadingPlaceholder_iff_witness :
    showLoadingPlaceholder (syncStep heldState SyncEvent.pollTick).st = false :=
  (loadingPlaceholder_iff heldState.st heldState sampleReading rfl).2

/-! ## Theorems about the chart pipeline -/

/-- Claim C4: the normalizer is the identity on every numeric channel
(`point.ch ?? undefined`): a null or missing channel maps to the absent
field `none` — never to `some 0` and never to a NaN, which does not exist
in this value model — while a present value, 0 included, maps to itself,
so absent and zero stay distinguishable. -/
theorem normalizer_preserves_channels (fmtTs fmtDate : String → String)
    (point : SensorData) :
    (toChartPoint fmtTs fmtDate point).ph = point.ph
    ∧ (toChartPoint fmtTs fmtDate point).ph_voltage = point.ph_voltage
    ∧ (toChartPoint fmtTs fmtDate point).temp1 = point.temp1
    ∧ (toChartPoint fmtTs fmtDate point).temp2 = point.temp2
    ∧ (toChartPoint fmtTs fmtDate point).bme_temperature = point.bme_temperature
    ∧ (toChartPoint fmtTs fmtDate point).bme_humidity = point.bme_humidity
    ∧ (toChartPoint fmtTs fmtDate point).bme_pressure = point.bme_pressure
    ∧ (toChartPoint fmtTs fmtDate point).bme_gas_resistance = point.bme_gas_resistance
    ∧ (toChartPoint fmtTs fmtDate point).methane_ppm = point.methane_ppm
    ∧ (toChartPoint fmtTs fmtDate point).methane_percent = point.methane_percent
    ∧ (toChartPoint fmtTs fmtDate point).methane_temperature = point.methane_temperature :=
  ⟨rfl, rfl, rfl, rfl, rfl, rfl, rfl, rfl, rfl, rfl, rfl⟩

/-- Claim C6: for any point sequence and non-empty key list, the series
filter returns the subsequence (order preserved) of the input, its length
never exceeds the input length, and a point is in the output iff it is an
input point on which at least one requested key is present. -/
theorem seriesFilter_subsequence (data : List ChartDataPoint)
    (dataKeys : List ChannelKey) (hne : dataKeys ≠ []) :
    (filteredData data dataKeys).Sublist data
    ∧ (filteredData data dataKeys).length ≤ data.length
    ∧ (∀ p, p ∈ filteredData data dataKeys ↔
        (p ∈ data ∧ dataKeys.any (fun key => (channelValue p key).isSome) = true)) := by
  unfold filteredData
  exact ⟨List.filter_sublist data, List.length_filter_le _ data,
    fun p => List.mem_filter⟩

/-- Witness for C6 at a one-point sequence and the single key `ph`. -/
theorem seriesFilter_subsequence_witness :
    (filteredData [samplePoint] [ChannelKey.ph]).Sublist [samplePoint]
    ∧ (filteredData [samplePoint] [ChannelKey.ph]).length
        ≤ ([samplePoint] : List ChartDataPoint).length
    ∧ (∀ p, p ∈ filteredData [samplePoint] [ChannelKey.ph] ↔
        (p ∈ [samplePoint]
          ∧ ([ChannelKey.ph] : List ChannelKey).any
              (fun key => (channelValue p key).isSome) = true)) :=
  seriesFilter_subsequence [samplePoint] [ChannelKey.ph] (List.cons_ne_nil _ _)

/-- Claim C7: when no input point carries any of the requested channel
keys, the chart builder produces the explicit no-data outcome, not an
empty-but-valid chart bundle. -/
theorem noData_outcome (data : List ChartDataPoint) (dataKeys : List ChannelKey)
    (domain : Option (ℚ × ℚ)) (autoScale : Bool)
    (alarmZones : Option (List AlarmZone))
    (h : ∀ p ∈ data, ∀ key ∈ dataKeys, channelValue p key = none) :
    sensorChart data dataKeys domain autoScale alarmZones = ChartOutcome.noData := by
  have hfd : filteredData data dataKeys = [] := by
    unfold filteredData
    rw [List.filter_eq_nil_iff]
    intro p hp
    simp only [List.any_eq_true, not_exists, not_and, Bool.not_eq_true]
    intro key hk
    simp [h p hp key hk]
  simp [sensorChart, hfd]

/-- Witness for C7: a pressure-only point contributes nothing to a chart
requesting only the pH key, so that chart reports no data. -/
theorem noData_outcome_witness :
    sensorChart [pressurePoint "t1" 10] [ChannelKey.ph] none false none
      = ChartOutcome.noData :=
  noData_outcome [pressurePoint "t1" 10] [ChannelKey.ph] none false none (by decide)

/-- Claim C5: with auto-scaling on and no fixed domain, an empty value
pool produces no axis domain; a non-empty pool with minimum mn and maximum
mx produces `[mn - (mx - mn)/10, mx + (mx - mn)/10]`; concretely the pool
[10, 20, 30] gives the domain (8, 32) and the constant pool [5, 5, 5]
gives the uncorrected zero-width domain (5, 5). -/
theorem autoScale_domain (dataKeys : List ChannelKey)
    (fd : List ChartDataPoint) (hfd : 0 < fd.length) :
    (collectValues dataKeys fd = [] → yAxisDomain none true dataKeys fd = none)
    ∧ (∀ mn mx, (collectValues dataKeys fd).min? = some mn →
        (collectValues dataKeys fd).max? = some mx →
        yAxisDomain none true dataKeys fd
          = some (mn - (mx - mn) * (1 / 10), mx + (mx - mn) * (1 / 10)))
    ∧ yAxisDomain none true [ChannelKey.bme_pressure] pressurePoints = some (8, 32)
    ∧ yAxisDomain none true [ChannelKey.bme_pressure] constPoints = some (5, 5) := by
  refine ⟨?_, ?_, ?_, ?_⟩
  · intro h
    unfold yAxisDomain
    rw [if_pos ⟨rfl, hfd⟩, h]
    rfl
  · intro mn mx hmn hmx
    unfold yAxisDomain
    rw [if_pos ⟨rfl, hfd⟩]
    cases h : collectValues dataKeys fd with
    | nil => rw [h] at hmn; simp [List.min?] at hmn
    | cons v vs =>
      rw [h] at hmn hmx
      have hmn2 : List.foldl min v vs = mn := by simpa [List.min?] using hmn
      have hmx2 : List.foldl max v vs = mx := by simpa [List.max?] using hmx
      simp only [autoDomain]
      rw [hmn2, hmx2]
  · have h : collectValues [ChannelKey.bme_pressure] pressurePoints = [10, 20, 30] := by
      decide
    unfold yAxisDomain
    rw [if_pos ⟨rfl, by decide⟩, h]
    simp only [autoDomain]
    norm_num [List.foldl, min_def, max_def]
  · have h : collectValues [ChannelKey.bme_pressure] constPoints = [5, 5, 5] := by
      decide
    unfold yAxisDomain
    rw [if_pos ⟨rfl, by decide⟩, h]
    simp only [autoDomain]
    norm_num [List.foldl, min_def, max_def]

/-- Witness for C5: the three-point pressure series with values 10, 20, 30
yields the padded domain (8, 32). -/
theorem autoScale_domain_witness :
    yAxisDomain none true [ChannelKey.bme_pressure] pressurePoints = some (8, 32) :=
  (autoScale_domain [ChannelKey.bme_pressure] pressurePoints (by decide)).2.2.1

/-- Claim C8: for both quantities that define alarm zones the configured
band lists are ordered strictly ascending by min, contiguous (each zone max
equals the next zone min, hence non-overlapping), and they cover the full
configured range exactly once, reading each band as half-open below its
successor and the last as closed: every x in [0, 14] lies in exactly one
pH band and every y in [0, 80] lies in exactly one tank-temperature band. -/
theorem alarmZones_contiguous_cover (x y : ℚ) (hx0 : 0 ≤ x) (hx1 : x ≤ 14)
    (hy0 : 0 ≤ y) (hy1 : y ≤ 80) :
    ascendingByMin ALARM_ZONES.ph = true
    ∧ contiguousBands ALARM_ZONES.ph = true
    ∧ ascendingByMin ALARM_ZONES.tank_temperature = true
    ∧ contiguousBands ALARM_ZONES.tank_temperature = true
    ∧ bandsCount ALARM_ZONES.ph x = 1
    ∧ bandsCount ALARM_ZONES.tank_temperature y = 1 := by
  refine ⟨by decide, by decide, by decide, by decide, ?_, ?_⟩
  · show (if (0 : ℚ) ≤ x ∧ x < 6 then 1 else 0)
        + ((if (6 : ℚ) ≤ x ∧ x < 8 then 1 else 0)
          + (if (8 : ℚ) ≤ x ∧ x ≤ 14 then 1 else 0)) = 1
    rcases lt_or_le x 6 with h6 | h6
    · rw [if_pos ⟨hx0, h6⟩, if_neg (by rintro ⟨h, -⟩; linarith),
        if_neg (by rintro ⟨h, -⟩; linarith)]
    · rcases lt_or_le x 8 with h8 | h8
      · rw [if_neg (by rintro ⟨-, h⟩; linarith), if_pos ⟨h6, h8⟩,
          if_neg (by rintro ⟨h, -⟩; linarith)]
      · rw [if_neg (by rintro ⟨-, h⟩; linarith),
          if_neg (by rintro ⟨-, h⟩; linarith), if_pos ⟨h8, hx1⟩]
  · show (if (0 : ℚ) ≤ y ∧ y < 30 then 1 else 0)
        + ((if (30 : ℚ) ≤ y ∧ y < 40 then 1 else 0)
          + (if (40 : ℚ) ≤ y ∧ y ≤ 80 then 1 else 0)) = 1
    rcases lt_or_le y 30 with h30 | h30
    · rw [if_pos ⟨hy0, h30⟩, if_neg (by rintro ⟨h, -⟩; linarith),
        if_neg (by rintro ⟨h, -⟩; linarith)]
    · rcases lt_or_le y 40 with h40 | h40
      · rw [if_neg (by rintro ⟨-, h⟩; linarith), if_pos ⟨h30, h40⟩,
          if_neg (by rintro ⟨h, -⟩; linarith)]
      · rw [if_neg (by rintro ⟨-, h⟩; linarith),
          if_neg (by rintro ⟨-, h⟩; linarith), if_pos ⟨h40, hy1⟩]

/-- Witness for C8: pH 7 lies in exactly one pH band and 35 °C lies in
exactly one tank-temperature band. -/
theorem alarmZones_contiguous_cover_witness :
    bandsCount ALARM_ZONES.ph 7 = 1
    ∧ bandsCount ALARM_ZONES.tank_temperature 35 = 1 := by
  have h := alarmZones_contiguous_cover 7 35 (by norm_num) (by norm_num)
    (by norm_num) (by norm_num)
  exact ⟨h.2.2.2.2.1, h.2.2.2.2.2⟩
